import Mathlib

set_option linter.unusedVariables false

/-
Verification of the kaws trust-material manager against its specification.

The Rust sources under src/ are shallowly embedded: pure computations become
Lean functions, filesystem effects become explicit passing of an association
list from paths to byte contents, and each fallible external step (spawning a
child process, writing to its stdin, waiting for it, KMS calls) is resolved by
an explicit oracle argument, so that every exit path of the Rust code is a
branch of the Lean function. Bytes are modelled as Nat, paths as lists of
path components.

The module encryption.rs (struct Encryptor) is declared in main.rs but is not
present under src/; the definitions that depend on it are modelled from the
spec and carry a doc comment saying so.
-/

namespace Kaws

/-- Error type of the program: error.rs wraps every failure in a message
string (struct KawsError). -/
structure KawsError where
  message : String
deriving DecidableEq, Repr

/-- KawsResult from error.rs: `Result<Option<String>, KawsError>`. -/
abbrev KawsResult := Except KawsError (Option String)

/-- Boolean success test for Except values (Rust Result::is_ok). -/
def exceptOk {ε α : Type} : Except ε α → Bool
  | .ok _ => true
  | .error _ => false

/-- A filesystem path, as its slash-separated components. -/
abbrev Path := List String

/-- The filesystem: an association list from paths to byte contents.
The first matching entry is the current content of a path. -/
abbrev FS := List (Path × List Nat)

/-- Read the current content of a path (Rust: reading the file). -/
def fsRead (fs : FS) (p : Path) : Option (List Nat) :=
  match fs with
  | [] => none
  | e :: rest => if e.1 = p then some e.2 else fsRead rest p

/-- Write a file, replacing any previous content (Rust File::create +
write_all: creates or truncates, never refuses an existing file). -/
def fsWrite (fs : FS) (p : Path) (v : List Nat) : FS :=
  (p, v) :: fs

/-- Remove a single file (Rust std::fs::remove_file). -/
def fsRemove (fs : FS) (p : Path) : FS :=
  match fs with
  | [] => []
  | e :: rest => if e.1 = p then fsRemove rest p else e :: fsRemove rest p

/-- Whether a path lies inside the directory named d (its first component). -/
def isUnder (d : String) (p : Path) : Bool :=
  p.head? == some d

/-- Remove a directory and everything inside it (Rust TempDir::close and the
TempDir Drop impl). -/
def fsRemoveDir (fs : FS) (d : String) : FS :=
  match fs with
  | [] => []
  | e :: rest => if isUnder d e.1 then fsRemoveDir rest d else e :: fsRemoveDir rest d

/-- A master-key reference: region plus key identifier (spec section 3). -/
structure MasterKeyRef where
  region : String
  keyId : String
deriving DecidableEq, Repr

/-- State of the remote key-management service: a fresh-id counter and the
table of wrapped data keys it has issued. Each entry records the wrapped-key
identifier, the master key it was wrapped under, and the data key itself
(which never leaves the service except as the plaintext half of a freshly
generated pair). -/
structure KmsState where
  nextId : Nat
  table : List (Nat × MasterKeyRef × Nat)
deriving Repr

/-- An authenticated symmetric cipher, as used locally on the data key. The
decryption side is partial: tampering makes it fail rather than return wrong
plaintext. -/
structure SymCipher where
  enc : Nat → List Nat → List Nat
  dec : Nat → List Nat → Option (List Nat)

/-- An encrypted blob. The spec describes it as base64(wrapped-key with its
identifying metadata, followed by the cipher output); base64 and the length
split are bijective encodings, modelled structurally as the two fields. -/
structure EncryptedBlob where
  wrapped : Nat
  payload : List Nat
deriving DecidableEq, Repr

namespace Encryption

/-- Modelled from the spec: encryption.rs is not under src/. The remote
service generates a fresh (plaintext data key, wrapped data key) pair scoped
to the given master-key reference and records the wrapping so it can later
unwrap it. -/
def kmsGenerate (st : KmsState) (ref : MasterKeyRef) : (Nat × Nat) × KmsState :=
  ((st.nextId, st.nextId), ⟨st.nextId + 1, (st.nextId, ref, st.nextId) :: st.table⟩)

/-- Lookup of a wrapped key in the service's table, succeeding only when the
caller is authorized for the master key the entry was wrapped under. -/
def unwrapIn (auth : List MasterKeyRef) :
    List (Nat × MasterKeyRef × Nat) → Nat → Option Nat
  | [], _ => none
  | (w', r, dk) :: rest, w =>
    if w' = w then (if r ∈ auth then some dk else none) else unwrapIn auth rest w

/-- Modelled from the spec: the remote service unwraps an embedded wrapped
key; the wrapped key carries enough metadata to identify the master key, and
unwrapping fails unless that master key is reachable by the caller. -/
def kmsUnwrap (auth : List MasterKeyRef) (st : KmsState) (w : Nat) : Option Nat :=
  unwrapIn auth st.table w

/-- Modelled from the spec: encryption.rs is not under src/. `encrypt`
requests a fresh data-key pair scoped to the master-key reference, encrypts
the plaintext locally with the plaintext data key, discards that key, and
returns the blob holding the wrapped key and the cipher output. -/
def encrypt (c : SymCipher) (ref : MasterKeyRef) (p : List Nat) (st : KmsState) :
    EncryptedBlob × KmsState :=
  let ((dk, w), st') := kmsGenerate st ref
  (⟨w, c.enc dk p⟩, st')

/-- Modelled from the spec: encryption.rs is not under src/. `decrypt` parses
the blob, asks the remote service to unwrap the embedded wrapped key (failing
with RemoteKeyServiceError when the master key is not reachable), then
decrypts locally (failing with DecryptionError on tampering). -/
def decrypt (c : SymCipher) (auth : List MasterKeyRef) (st : KmsState)
    (b : EncryptedBlob) : Except KawsError (List Nat) :=
  match kmsUnwrap auth st b.wrapped with
  | none => .error (KawsError.mk ("RemoteKeyServiceError"))
  | some dk =>
    match c.dec dk b.payload with
    | none => .error (KawsError.mk ("DecryptionError"))
    | some p => .ok p

/-- Serialization of a blob to file bytes (the base64 text written to disk),
modelled as the wrapped-key identifier followed by the cipher output. -/
def blobBytes (b : EncryptedBlob) : List Nat :=
  b.wrapped :: b.payload

/-- Modelled from the spec: encryption.rs is not under src/.
`encrypt_and_write_file` encrypts the content and writes the resulting blob
to the given path. -/
def encryptAndWriteFile (c : SymCipher) (ref : MasterKeyRef) (st : KmsState)
    (content : List Nat) (p : Path) (fs : FS) : KmsState × FS :=
  let (b, st') := encrypt c ref content st
  (st', fsWrite fs p (blobBytes b))

end Encryption

/-- A concrete authenticated cipher used to instantiate witnesses: encryption
prepends the key, decryption checks and strips it. -/
def sampleCipher : SymCipher :=
  ⟨fun k p => k :: p,
   fun k l =>
     match l with
     | [] => none
     | k' :: rest => if k' = k then some rest else none⟩

/-- A concrete master-key reference for witnesses. -/
def sampleRef : MasterKeyRef :=
  ⟨"us-east-1", "alias/kaws-demo"⟩

/-- The initial state of the key service, for witnesses. -/
def kms0 : KmsState :=
  ⟨0, []⟩

/-- A PEM certificate (pki.rs: struct Certificate(Vec<u8>)). -/
structure Certificate where
  bytes : List Nat
deriving DecidableEq, Repr

/-- A private key (pki.rs: struct PrivateKey(Vec<u8>)). -/
structure PrivateKey where
  bytes : List Nat
deriving DecidableEq, Repr

/-- A certificate signing request (pki.rs: struct CertificateSigningRequest). -/
structure CertificateSigningRequest where
  bytes : List Nat
deriving DecidableEq, Repr

/-- A certificate authority: certificate plus private key (pki.rs). -/
structure CertificateAuthority where
  cert : Certificate
  key : PrivateKey
deriving DecidableEq, Repr

/-- Parsed response of `cfssl gencert` (pki.rs: CfsslGencertResponse). -/
structure CfsslGencertResponse where
  cert : List Nat
  key : List Nat
deriving DecidableEq, Repr

/-- Parsed response of `cfssl sign` (pki.rs: CfsslSignResponse). -/
structure CfsslSignResponse where
  cert : List Nat
deriving DecidableEq, Repr

/-- Parsed response of `cfssl genkey` (pki.rs: CfsslGenkeyResponse). -/
structure CfsslGenkeyResponse where
  csr : List Nat
  key : List Nat
deriving DecidableEq, Repr

/-- Captured output of a finished child process (std::process::Output):
whether the exit status was success, plus stdout and stderr bytes. -/
structure ProcOutput where
  success : Bool
  stdout : List Nat
  stderr : List Nat
deriving DecidableEq, Repr

/-- Oracle resolving the fallible steps of one child-process exchange:
whether spawn succeeds, whether a stdin handle is acquired, whether writing
the request to stdin succeeds, whether wait_with_output succeeds, and the
captured output when it does. -/
structure ChildOracle where
  spawnOk : Bool
  stdinSome : Bool
  writeOk : Bool
  waitOk : Bool
  out : ProcOutput
deriving DecidableEq, Repr

/-- The request payload the code writes to cfssl's stdin. pki.rs builds it
with format! on the raw template whose escaped braces yield the literal text
\x7b"CN":"<cn>","key":\x7b"algo":"rsa","size":2048\x7d\x7d\x7d — note the
three closing braces produced by the trailing six-brace run of the template. -/
def cfsslRequestPayload (cn : String) : String :=
  "\x7b\"CN\":\"" ++ cn ++ "\",\"key\":\x7b\"algo\":\"rsa\",\"size\":2048\x7d\x7d\x7d"

/-- The request payload the spec prescribes, for comparison with the one the
code builds. Modelled from the spec: the JSON object
\x7b"CN": <cn>, "key": \x7b"algo": "rsa", "size": 2048\x7d\x7d, written in
the compact serialization the code intends (no whitespace). -/
def specRequestPayload (cn : String) : String :=
  "\x7b\"CN\":\"" ++ cn ++ "\",\"key\":\x7b\"algo\":\"rsa\",\"size\":2048\x7d\x7d"

/-- CertificateAuthority::generate (pki.rs): spawn `cfssl gencert -initca -`,
write the request payload to its stdin, wait, and on a success exit status
parse stdout as a gencert response; on a non-zero exit status return an
error. The second component records the payload passed to the stdin write,
when that step is reached. -/
def CertificateAuthority.generate
    (parse : List Nat → Except KawsError CfsslGencertResponse)
    (co : ChildOracle) (cn : String) :
    Except KawsError CertificateAuthority × Option String :=
  if co.spawnOk = false then
    (.error (KawsError.mk ("failed to spawn cfssl")), none)
  else if co.stdinSome = false then
    (.error (KawsError.mk ("failed to acquire handle to stdin of child process")), none)
  else
    let payload := cfsslRequestPayload cn
    if co.writeOk = false then
      (.error (KawsError.mk ("failed to write to stdin of child process")), some payload)
    else if co.waitOk = false then
      (.error (KawsError.mk ("failed to wait for child process")), some payload)
    else if co.out.success then
      match parse co.out.stdout with
      | .error e => (.error e, some payload)
      | .ok raw => (.ok ⟨⟨raw.cert⟩, ⟨raw.key⟩⟩, some payload)
    else
      (.error (KawsError.mk ("Execution of `cfssl genkey` failed.")), some payload)

/-- Oracle resolving the fallible steps of staging CA materials to a
temporary directory: whether TempDir::new succeeds and whether each of the
two file writes succeeds. -/
structure StageOracle where
  tempdirOk : Bool
  certWriteOk : Bool
  keyWriteOk : Bool
deriving DecidableEq, Repr

/-- CertificateAuthority::temporary_write (pki.rs): create a fresh temporary
directory, write the CA certificate to cert.pem and the CA key to key.pem
inside it, and return the directory with both paths. On an error exit the
TempDir value is dropped, which removes the directory and its contents. The
to_str validity checks cannot fail in this model, where paths are already
strings. tmp names the fresh directory TempDir::new created. -/
def CertificateAuthority.temporary_write (ca : CertificateAuthority)
    (so : StageOracle) (tmp : String) (fs : FS) :
    Except KawsError (String × Path × Path) × FS :=
  if so.tempdirOk = false then
    (.error (KawsError.mk ("failed to create temporary directory")), fs)
  else if so.certWriteOk = false then
    (.error (KawsError.mk ("failed to write temporary cert.pem")),
     fsRemoveDir (fsWrite fs [tmp, "cert.pem"] []) tmp)
  else if so.keyWriteOk = false then
    (.error (KawsError.mk ("failed to write temporary key.pem")),
     fsRemoveDir (fsWrite (fsWrite fs [tmp, "cert.pem"] ca.cert.bytes)
       [tmp, "key.pem"] []) tmp)
  else
    (.ok (tmp, [tmp, "cert.pem"], [tmp, "key.pem"]),
     fsWrite (fsWrite fs [tmp, "cert.pem"] ca.cert.bytes)
       [tmp, "key.pem"] ca.key.bytes)

/-- CertificateAuthority::generate_cert (pki.rs): stage the CA materials to a
temporary directory, run `cfssl gencert` against them with the request
payload on stdin (plus an optional -hostname SAN list), and parse stdout on a
success exit status. Every exit path after staging removes the temporary
directory: the success and engine-failure paths through tempdir.close(), the
early ? returns through the TempDir Drop impl. Returns the result, the final
filesystem, and the payload written to stdin when that step is reached. -/
def CertificateAuthority.generate_cert (ca : CertificateAuthority)
    (parse : List Nat → Except KawsError CfsslGencertResponse)
    (so : StageOracle) (co : ChildOracle) (tmp : String) (cn : String)
    (san : Option (List String)) (fs : FS) :
    Except KawsError (Certificate × PrivateKey) × FS × Option String :=
  match ca.temporary_write so tmp fs with
  | (.error e, fs1) => (.error e, fs1, none)
  | (.ok _, fs1) =>
    if co.spawnOk = false then
      (.error (KawsError.mk ("failed to spawn cfssl")), fsRemoveDir fs1 tmp, none)
    else if co.stdinSome = false then
      (.error (KawsError.mk ("failed to acquire handle to stdin of child process")),
       fsRemoveDir fs1 tmp, none)
    else
      let payload := cfsslRequestPayload cn
      if co.writeOk = false then
        (.error (KawsError.mk ("failed to write to stdin of child process")),
         fsRemoveDir fs1 tmp, some payload)
      else if co.waitOk = false then
        (.error (KawsError.mk ("failed to wait for child process")),
         fsRemoveDir fs1 tmp, some payload)
      else if co.out.success then
        match parse co.out.stdout with
        | .error e => (.error e, fsRemoveDir fs1 tmp, some payload)
        | .ok raw =>
          (.ok (⟨raw.cert⟩, ⟨raw.key⟩), fsRemoveDir fs1 tmp, some payload)
      else
        (.error (KawsError.mk ("Execution of `cfssl gencert` failed.")),
         fsRemoveDir fs1 tmp, some payload)

/-- CertificateAuthority::sign (pki.rs): stage the CA materials to a
temporary directory, run `cfssl sign` with the CSR bytes on stdin, and parse
stdout on a success exit status. Cleanup of the temporary directory follows
the same paths as generate_cert. The third component records the CSR bytes
written to stdin, when that step is reached. -/
def CertificateAuthority.sign (ca : CertificateAuthority)
    (parse : List Nat → Except KawsError CfsslSignResponse)
    (so : StageOracle) (co : ChildOracle) (tmp : String)
    (csr : CertificateSigningRequest) (fs : FS) :
    Except KawsError Certificate × FS × Option (List Nat) :=
  match ca.temporary_write so tmp fs with
  | (.error e, fs1) => (.error e, fs1, none)
  | (.ok _, fs1) =>
    if co.spawnOk = false then
      (.error (KawsError.mk ("failed to spawn cfssl")), fsRemoveDir fs1 tmp, none)
    else if co.stdinSome = false then
      (.error (KawsError.mk ("failed to acquire handle to stdin of child process")),
       fsRemoveDir fs1 tmp, none)
    else if co.writeOk = false then
      (.error (KawsError.mk ("failed to write to stdin of child process")),
       fsRemoveDir fs1 tmp, some csr.bytes)
    else if co.waitOk = false then
      (.error (KawsError.mk ("failed to wait for child process")),
       fsRemoveDir fs1 tmp, some csr.bytes)
    else if co.out.success then
      match parse co.out.stdout with
      | .error e => (.error e, fsRemoveDir fs1 tmp, some csr.bytes)
      | .ok response =>
        (.ok ⟨response.cert⟩, fsRemoveDir fs1 tmp, some csr.bytes)
    else
      (.error (KawsError.mk ("Execution of `cfssl gencert` failed.")),
       fsRemoveDir fs1 tmp, some csr.bytes)

/-- CertificateSigningRequest::generate (pki.rs): spawn `cfssl genkey -`,
write the request payload to its stdin, wait, and on a success exit status
parse stdout as a genkey response. The second component records the payload
written to stdin, when that step is reached. -/
def CertificateSigningRequest.generate
    (parse : List Nat → Except KawsError CfsslGenkeyResponse)
    (co : ChildOracle) (cn : String) :
    Except KawsError (CertificateSigningRequest × PrivateKey) × Option String :=
  if co.spawnOk = false then
    (.error (KawsError.mk ("failed to spawn cfssl")), none)
  else if co.stdinSome = false then
    (.error (KawsError.mk ("failed to acquire handle to stdin of child process")), none)
  else
    let payload := cfsslRequestPayload cn
    if co.writeOk = false then
      (.error (KawsError.mk ("failed to write to stdin of child process")), some payload)
    else if co.waitOk = false then
      (.error (KawsError.mk ("failed to wait for child process")), some payload)
    else if co.out.success then
      match parse co.out.stdout with
      | .error e => (.error e, some payload)
      | .ok raw => (.ok (⟨raw.csr⟩, ⟨raw.key⟩), some payload)
    else
      (.error (KawsError.mk ("Execution of `cfssl genkey` failed.")), some payload)

/-- execute_child_process (process.rs): run the command, and on a non-success
exit status build an error message from the captured stdout and stderr (whose
utf8 decoding may itself fail) and return it; on success return Ok(None).
utf8Ok resolves the from_utf8 calls in the failure branch. -/
def execute_child_process (spawn : Option ProcOutput) (utf8Ok : Bool) :
    Except KawsError (Option String) :=
  match spawn with
  | none => .error (KawsError.mk ("failed to run child process"))
  | some out =>
    if out.success then
      .ok none
    else if utf8Ok = false then
      .error (KawsError.mk ("invalid utf-8 sequence"))
    else
      .error (KawsError.mk ("Execution of the child process failed."))

/-- CertificateAuthority::write_to_files (pki.rs): File::create the
certificate path and write the CA certificate in plaintext, then encrypt the
CA key and write the blob to the key path. File::create truncates an existing
file; neither write checks for or refuses existing content. -/
def CertificateAuthority.write_to_files (ca : CertificateAuthority)
    (c : SymCipher) (ref : MasterKeyRef) (st : KmsState)
    (certPath keyPath : Path) (fs : FS) :
    (Except KawsError Unit × KmsState) × FS :=
  let fs1 := fsWrite fs certPath ca.cert.bytes
  let (st', fs2) := Encryption.encryptAndWriteFile c ref st ca.key.bytes keyPath fs1
  ((.ok (), st'), fs2)

/-- Canonical path of an administrator's private key:
clusters/<cluster>/<name>-key.pem (admin.rs). -/
def adminKeyPath (cluster admin : String) : Path :=
  ["clusters", cluster, admin ++ "-key.pem"]

/-- Canonical path of an administrator's CSR:
clusters/<cluster>/<name>-csr.pem (admin.rs). -/
def adminCsrPath (cluster admin : String) : Path :=
  ["clusters", cluster, admin ++ "-csr.pem"]

/-- Canonical path of an administrator's certificate:
clusters/<cluster>/<name>.pem (admin.rs). -/
def adminCertPath (cluster admin : String) : Path :=
  ["clusters", cluster, admin ++ ".pem"]

/-- Canonical path of a cluster's CA certificate (admin.rs). -/
def caCertPath (cluster : String) : Path :=
  ["clusters", cluster, "ca.pem"]

/-- Canonical path a cluster's CA key is decrypted to (admin.rs). -/
def caKeyPath (cluster : String) : Path :=
  ["clusters", cluster, "ca-key.pem"]

/-- Canonical path of a cluster's encrypted CA key (admin.rs). -/
def encryptedCaKeyPath (cluster : String) : Path :=
  ["clusters", cluster, "ca-key-encrypted.base64"]

/-- Render a component path as the slash-separated string used in command
arguments. -/
def pathStr (p : Path) : String :=
  String.intercalate "/" p

/-- Captured output of a child process whose stdout the code consumes as text
via String::from_utf8_lossy (lossy decoding folded into the field). -/
structure RawOutput where
  success : Bool
  stdout : String
  stderr : String
deriving DecidableEq, Repr

/-- Rust str::trim_right: the string with trailing whitespace removed. -/
def trimRight (s : String) : String :=
  String.mk ((s.toList.reverse.dropWhile Char.isWhitespace).reverse)

namespace Admin

/-- Admin::output (admin.rs): run `kaws cluster output <cluster> <name>` and
capture its output. The only fallible step is the spawn itself (the try! on
Command::output); when the subprocess runs, its stdout is trimmed and
returned as Ok regardless of the subprocess's exit status, which is never
inspected. -/
def output (spawn : Option RawOutput) : Except KawsError (Option String) :=
  match spawn with
  | none => .error (KawsError.mk ("failed to run kaws cluster output"))
  | some raw => .ok (some (trimRight raw.stdout))

/-- Oracle resolving the fallible steps of Admin::create: the
create_dir_all call, then the two openssl child processes together with the
bytes each writes to its -out path when it succeeds. -/
structure CreateOracle where
  mkdirOk : Bool
  genrsaOk : Bool
  keyBytes : List Nat
  reqOk : Bool
  csrBytes : List Nat
deriving DecidableEq, Repr

/-- Admin::create (admin.rs): create the cluster directory, run
`openssl genrsa -out clusters/<cluster>/<name>-key.pem 2048`, then
`openssl req -new -key ... -out clusters/<cluster>/<name>-csr.pem`. Each
openssl child writes its output file directly at the given path; no
encryption step is involved anywhere in the operation. -/
def create (o : CreateOracle) (cluster admin : String) (fs : FS) :
    Except KawsError (Option String) × FS :=
  if o.mkdirOk = false then
    (.error (KawsError.mk ("failed to create directory")), fs)
  else if o.genrsaOk = false then
    (.error (KawsError.mk ("Execution of openssl genrsa failed.")), fs)
  else
    let fs1 := fsWrite fs (adminKeyPath cluster admin) o.keyBytes
    if o.reqOk = false then
      (.error (KawsError.mk ("Execution of openssl req failed.")), fs1)
    else
      let fs2 := fsWrite fs1 (adminCsrPath cluster admin) o.csrBytes
      (.ok (some ("Certificate signing request created!")), fs2)

/-- The argument list admin.rs passes to `openssl x509` when signing an
administrator's CSR (Admin::sign, the execute_child_process call). -/
def signOpensslArgs (cluster admin : String) : List String :=
  ["x509", "-req",
   "-in", pathStr (adminCsrPath cluster admin),
   "-CA", pathStr (caCertPath cluster),
   "-CAkey", pathStr (caKeyPath cluster),
   "-CAcreateserial",
   "-out", pathStr (adminCertPath cluster admin),
   "-days", "365"]

/-- Oracle resolving the fallible steps of Admin::sign: the spawn of the
`kaws cluster output` subprocess, the Region parse of its stdout, the
decrypt_file call (covering both the read of the encrypted file and the
remote unwrap) with the plaintext it stages on success, and the openssl x509
child with the certificate it writes on success. -/
structure SignOracle where
  regionSpawn : Option RawOutput
  regionParseOk : Bool
  decryptOk : Bool
  caKeyPlain : List Nat
  opensslOk : Bool
  certBytes : List Nat
deriving DecidableEq, Repr

/-- The three observables of one Admin::sign run: its result, the final
filesystem, and the arguments of the openssl x509 invocation when it is
reached. -/
structure SignRun where
  result : Except KawsError (Option String)
  fs : FS
  openssl : Option (List String)
deriving Repr

/-- Admin::sign (admin.rs): look up the cluster's region via Admin::output,
parse it, decrypt the encrypted CA key to clusters/<cluster>/ca-key.pem, run
`openssl x509` to issue the administrator's certificate, and return.
Modelled from the spec for the Encryptor (encryption.rs is not under src/):
decrypt_file stages the plaintext and the Encryptor guarantees the staged
plaintext file is removed on every exit path of the owning operation, which
the model applies as a fsRemove of the staged path on every return after the
decrypt succeeds. -/
def sign (o : SignOracle) (cluster admin : String) (fs : FS) : SignRun :=
  match output o.regionSpawn with
  | .error e => ⟨.error e, fs, none⟩
  | .ok _ =>
    if o.regionParseOk = false then
      ⟨.error (KawsError.mk ("ParseRegionError")), fs, none⟩
    else if o.decryptOk = false then
      ⟨.error (KawsError.mk ("failed to decrypt the CA key")), fs, none⟩
    else
      let fs1 := fsWrite fs (caKeyPath cluster) o.caKeyPlain
      let args := Admin.signOpensslArgs cluster admin
      if o.opensslOk = false then
        ⟨.error (KawsError.mk ("Execution of openssl x509 failed.")),
         fsRemove fs1 (caKeyPath cluster), some args⟩
      else
        let fs2 := fsWrite fs1 (adminCertPath cluster admin) o.certBytes
        ⟨.ok (some ("Client certificate created!")),
         fsRemove fs2 (caKeyPath cluster), some args⟩

end Admin

/-- The top-level driver (main.rs): print the operation's message (green on
success when one is present, the error in red prefixed with Error: on
failure) and exit with code 1 on failure, 0 otherwise. Returns the exit code
and the lines printed. -/
def mainRun (r : Except KawsError (Option String)) : Nat × List String :=
  match r with
  | .ok (some m) => (0, [m])
  | .ok none => (0, [])
  | .error e => (1, ["Error:\n" ++ e.message])

/-- A concrete certificate authority for witnesses and counterexamples. -/
def sampleCA : CertificateAuthority :=
  ⟨⟨[1, 1, 1]⟩, ⟨[2, 2, 2]⟩⟩

/-- A concrete CSR for witnesses. -/
def sampleCSR : CertificateSigningRequest :=
  ⟨[3, 3, 3]⟩

/-- A child-process oracle where every step succeeds and the engine exits
zero, for witnesses. -/
def okOracle : ChildOracle :=
  ⟨true, true, true, true, ⟨true, [], []⟩⟩

/-- A child-process oracle where the engine runs but exits non-zero, for
witnesses. -/
def badOracle : ChildOracle :=
  ⟨true, true, true, true, ⟨false, [], []⟩⟩

/-- A parser that always fails, to instantiate parse arguments in closed
statements that never reach parsing. -/
def failGencertParse : List Nat → Except KawsError CfsslGencertResponse :=
  fun _ => .error (KawsError.mk ("ResponseParseError"))

/-- A sign-response parser that always fails, same purpose. -/
def failSignParse : List Nat → Except KawsError CfsslSignResponse :=
  fun _ => .error (KawsError.mk ("ResponseParseError"))

/-- A genkey-response parser that always fails, same purpose. -/
def failGenkeyParse : List Nat → Except KawsError CfsslGenkeyResponse :=
  fun _ => .error (KawsError.mk ("ResponseParseError"))

theorem fsRead_write_self (fs : FS) (p : Path) (v : List Nat) :
    fsRead (fsWrite fs p v) p = some v := by
  simp [fsRead, fsWrite]

theorem fsRead_write_ne (fs : FS) (p q : Path) (v : List Nat) (h : p ≠ q) :
    fsRead (fsWrite fs q v) p = fsRead fs p := by
  simp [fsRead, fsWrite, Ne.symm h]

theorem fsRead_remove_self (fs : FS) (p : Path) :
    fsRead (fsRemove fs p) p = none := by
  induction fs with
  | nil => simp [fsRemove, fsRead]
  | cons e rest ih =>
    by_cases h : e.1 = p
    · simpa [fsRemove, h] using ih
    · simp [fsRemove, fsRead, h, ih]

theorem fsRead_remove_ne (fs : FS) (p q : Path) (h : p ≠ q) :
    fsRead (fsRemove fs q) p = fsRead fs p := by
  induction fs with
  | nil => simp [fsRemove]
  | cons e rest ih =>
    by_cases he : e.1 = q
    · simp [fsRemove, fsRead, he, Ne.symm h, h, ih]
    · by_cases hp : e.1 = p
      · simp [fsRemove, fsRead, he, hp, h, ih]
      · simp [fsRemove, fsRead, he, hp, h, ih]

theorem fsRemoveDir_eq_self (fs : FS) (d : String)
    (h : ∀ e ∈ fs, isUnder d e.1 = false) :
    fsRemoveDir fs d = fs := by
  induction fs with
  | nil => rfl
  | cons e rest ih =>
    have he : isUnder d e.1 = false := h e (List.mem_cons_self e rest)
    have hrest : ∀ e' ∈ rest, isUnder d e'.1 = false := by
      intro e' he'
      exact h e' (List.mem_cons_of_mem e he')
    simp [fsRemoveDir, he, ih hrest]

theorem fsRemoveDir_write_under (fs : FS) (d : String) (p : Path) (v : List Nat)
    (h : isUnder d p = true) :
    fsRemoveDir (fsWrite fs p v) d = fsRemoveDir fs d := by
  simp [fsRemoveDir, fsWrite, h]

theorem isUnder_cons (d x : String) (rest : List String) :
    isUnder d (x :: rest) = (x == d) := by
  simp [isUnder]

/-- C1: decrypting the blob produced by encrypt(P, K) returns exactly P, for
every plaintext P, every reachable master-key reference K (reachable: K is in
the caller's authorized set), every service state, and every authenticated
cipher (one whose decryption inverts its encryption). -/
theorem envelope_encrypt_decrypt_roundtrip (c : SymCipher)
    (hc : ∀ k p, c.dec k (c.enc k p) = some p)
    (auth : List MasterKeyRef) (ref : MasterKeyRef) (href : ref ∈ auth)
    (st : KmsState) (p : List Nat) :
    Encryption.decrypt c auth (Encryption.encrypt c ref p st).2
      (Encryption.encrypt c ref p st).1 = .ok p := by
  simp [Encryption.decrypt, Encryption.encrypt, Encryption.kmsGenerate,
    Encryption.kmsUnwrap, Encryption.unwrapIn, href, hc]

/-- Witness for C1 at a concrete cipher, reference and plaintext. -/
theorem envelope_encrypt_decrypt_roundtrip_witness :
    sampleRef ∈ [sampleRef] ∧
    Encryption.decrypt sampleCipher [sampleRef]
      (Encryption.encrypt sampleCipher sampleRef [7, 7, 7] kms0).2
      (Encryption.encrypt sampleCipher sampleRef [7, 7, 7] kms0).1 = .ok [7, 7, 7] :=
  ⟨List.mem_singleton.mpr rfl,
   envelope_encrypt_decrypt_roundtrip sampleCipher
     (by
       intro k p
       simp [sampleCipher])
     [sampleRef] sampleRef (List.mem_singleton.mpr rfl) kms0 [7, 7, 7]⟩

theorem string_append_ne (a s t : String) (h : s ≠ t) : a ++ s ≠ a ++ t := by
  intro he
  apply h
  have h2 := congrArg String.data he
  simp only [String.data_append] at h2
  exact String.ext (List.append_cancel_left h2)

theorem adminKeyPath_ne_adminCsrPath (c a : String) :
    adminKeyPath c a ≠ adminCsrPath c a := by
  simp only [adminKeyPath, adminCsrPath, ne_eq, List.cons.injEq, and_true, true_and]
  intro hcon
  exact string_append_ne a "-key.pem" "-csr.pem" (by decide) hcon

/-- C2: on every exit path of Admin::sign, the staged plaintext CA key file
is absent from the filesystem when the operation returns (given that it was
not present beforehand), and the operation changes no file other than the
staged CA key path (removed again) and the administrator's certificate. -/
theorem admin_sign_no_plaintext_key_remains (o : Admin.SignOracle)
    (cluster admin : String) (fs : FS)
    (h : fsRead fs (caKeyPath cluster) = none) :
    fsRead (Admin.sign o cluster admin fs).fs (caKeyPath cluster) = none
    ∧ ∀ p, p ≠ caKeyPath cluster → p ≠ adminCertPath cluster admin →
        fsRead (Admin.sign o cluster admin fs).fs p = fsRead fs p := by
  rcases o with ⟨rs, rp, dk, kb, ok, cb⟩
  cases rs with
  | none =>
    refine ⟨by simpa [Admin.sign, Admin.output] using h, ?_⟩
    intro p hp1 hp2
    simp [Admin.sign, Admin.output]
  | some raw =>
    cases rp with
    | false =>
      refine ⟨by simpa [Admin.sign, Admin.output] using h, ?_⟩
      intro p hp1 hp2
      simp [Admin.sign, Admin.output]
    | true =>
      cases dk with
      | false =>
        refine ⟨by simpa [Admin.sign, Admin.output] using h, ?_⟩
        intro p hp1 hp2
        simp [Admin.sign, Admin.output]
      | true =>
        cases ok with
        | false =>
          refine ⟨?_, ?_⟩
          · simp [Admin.sign, Admin.output, fsRead_remove_self]
          · intro p hp1 hp2
            simp only [Admin.sign, Admin.output]
            simp only [Bool.true_eq_false, Bool.false_eq_true, if_false, if_true,
              ite_false, ite_true]
            rw [fsRead_remove_ne _ _ _ hp1, fsRead_write_ne _ _ _ _ hp1]
        | true =>
          refine ⟨?_, ?_⟩
          · simp [Admin.sign, Admin.output, fsRead_remove_self]
          · intro p hp1 hp2
            simp only [Admin.sign, Admin.output]
            simp only [Bool.true_eq_false, Bool.false_eq_true, if_false, if_true,
              ite_false, ite_true]
            rw [fsRead_remove_ne _ _ _ hp1, fsRead_write_ne _ _ _ _ hp2,
              fsRead_write_ne _ _ _ _ hp1]

/-- Witness for C2 at a concrete oracle, cluster and administrator. -/
theorem admin_sign_no_plaintext_key_remains_witness :
    fsRead ([] : FS) (caKeyPath ("demo")) = none
    ∧ fsRead (Admin.sign ⟨some ⟨true, "us-east-1\n", ""⟩, true, true, [5], true, [6]⟩
        ("demo") ("alice") []).fs (caKeyPath ("demo")) = none :=
  ⟨rfl,
   (admin_sign_no_plaintext_key_remains
     ⟨some ⟨true, "us-east-1\n", ""⟩, true, true, [5], true, [6]⟩
     ("demo") ("alice") [] rfl).1⟩

/-- C7: when Admin::create succeeds, the administrator's private key is on
disk at clusters/<cluster>/<name>-key.pem holding exactly the bytes openssl
generated, and the CSR at clusters/<cluster>/<name>-csr.pem likewise: both in
plaintext, the key never passing through the encryption layer. -/
theorem admin_create_persists_plaintext (o : Admin.CreateOracle)
    (cluster admin : String) (fs : FS)
    (hm : o.mkdirOk = true) (hg : o.genrsaOk = true) (hr : o.reqOk = true) :
    (Admin.create o cluster admin fs).1
      = .ok (some ("Certificate signing request created!"))
    ∧ fsRead (Admin.create o cluster admin fs).2 (adminKeyPath cluster admin)
      = some o.keyBytes
    ∧ fsRead (Admin.create o cluster admin fs).2 (adminCsrPath cluster admin)
      = some o.csrBytes := by
  refine ⟨?_, ?_, ?_⟩
  · simp [Admin.create, hm, hg, hr]
  · simp only [Admin.create, hm, hg, hr]
    simp only [Bool.true_eq_false, if_false]
    rw [fsRead_write_ne _ _ _ _ (adminKeyPath_ne_adminCsrPath cluster admin)]
    exact fsRead_write_self _ _ _
  · simp only [Admin.create, hm, hg, hr]
    simp only [Bool.true_eq_false, if_false]
    exact fsRead_write_self _ _ _

/-- Witness for C7 at a concrete oracle, cluster and administrator. -/
theorem admin_create_persists_plaintext_witness :
    fsRead (Admin.create ⟨true, true, [1, 2], true, [3, 4]⟩ ("demo") ("alice") []).2
      (adminKeyPath ("demo") ("alice")) = some [1, 2] :=
  (admin_create_persists_plaintext ⟨true, true, [1, 2], true, [3, 4]⟩
    ("demo") ("alice") [] rfl rfl rfl).2.1

/-- C8: the driver exits with code 0 exactly when the selected operation
succeeded and with code 1 on any error; on an error the error's message is
printed, and on a success carrying a message that message is printed. -/
theorem cli_exit_codes (r : Except KawsError (Option String)) :
    ((mainRun r).1 = 0 ↔ exceptOk r = true)
    ∧ (∀ e, r = .error e →
        (mainRun r).1 = 1 ∧ ("Error:\n" ++ e.message) ∈ (mainRun r).2)
    ∧ (∀ m, r = .ok (some m) → (mainRun r).1 = 0 ∧ m ∈ (mainRun r).2) := by
  rcases r with e | mo
  · refine ⟨by simp [mainRun, exceptOk], ?_, ?_⟩
    · intro e' he
      cases he
      simp [mainRun]
    · intro m hm
      cases hm
  · rcases mo with _ | m
    · refine ⟨by simp [mainRun, exceptOk], ?_, ?_⟩
      · intro e' he
        cases he
      · intro m hm
        cases hm
    · refine ⟨by simp [mainRun, exceptOk], ?_, ?_⟩
      · intro e' he
        cases he
      · intro m' hm
        cases hm
        simp [mainRun]

/-- Witness for C8 at a concrete error result. -/
theorem cli_exit_codes_witness :
    (mainRun (.error ⟨"boom"⟩)).1 = 1
    ∧ ("Error:\n" ++ "boom") ∈ (mainRun (.error (KawsError.mk ("boom")))).2 :=
  (cli_exit_codes (.error (KawsError.mk ("boom")))).2.1 (KawsError.mk ("boom")) rfl

/-- C9: when the `kaws cluster output` subprocess spawns, Admin::output
returns Ok with the trimmed stdout whatever the subprocess's exit status was
(the status is never inspected), so a failed lookup never surfaces as an
error value; only the spawn itself can fail. -/
theorem admin_output_ignores_exit_status (success : Bool) (outStr errStr : String) :
    Admin.output (some ⟨success, outStr, errStr⟩) = .ok (some (trimRight outStr))
    ∧ exceptOk (Admin.output (some ⟨false, outStr, errStr⟩)) = true
    ∧ exceptOk (Admin.output none) = false := by
  refine ⟨rfl, rfl, rfl⟩

/-- C10: whenever Admin::sign reaches its signing-engine invocation, the
argument list is exactly the openssl x509 command admin.rs builds, whose
validity flag is -days with value 365. -/
theorem admin_sign_validity_365_days (o : Admin.SignOracle)
    (cluster admin : String) (fs : FS) (args : List String)
    (h : (Admin.sign o cluster admin fs).openssl = some args) :
    args = Admin.signOpensslArgs cluster admin
    ∧ args.get? 11 = some ("-days") ∧ args.get? 12 = some ("365") := by
  have hargs : args = Admin.signOpensslArgs cluster admin := by
    rcases o with ⟨rs, rp, dk, kb, ok, cb⟩
    cases rs with
    | none => simp [Admin.sign, Admin.output] at h
    | some raw =>
      cases rp with
      | false => simp [Admin.sign, Admin.output] at h
      | true =>
        cases dk with
        | false => simp [Admin.sign, Admin.output] at h
        | true =>
          cases ok with
          | false =>
            simp only [Admin.sign, Admin.output, Option.some.injEq] at h
            simpa using h.symm
          | true =>
            simp only [Admin.sign, Admin.output, Option.some.injEq] at h
            simpa using h.symm
  subst hargs
  refine ⟨rfl, ?_, ?_⟩ <;> simp [Admin.signOpensslArgs]

/-- Witness for C10 at a concrete signing run that reaches openssl. -/
theorem admin_sign_validity_365_days_witness :
    (Admin.sign ⟨some ⟨true, "us-east-1", ""⟩, true, true, [5], true, [6]⟩
      ("demo") ("alice") []).openssl = some (Admin.signOpensslArgs ("demo") ("alice"))
    ∧ (Admin.signOpensslArgs ("demo") ("alice")).get? 12 = some ("365") :=
  ⟨rfl,
   (admin_sign_validity_365_days
     ⟨some ⟨true, "us-east-1", ""⟩, true, true, [5], true, [6]⟩
     ("demo") ("alice") [] (Admin.signOpensslArgs ("demo") ("alice")) rfl).2.2⟩

/-- C3 (failing evaluation): the request payload every issuance operation
writes to the engine's stdin is the spec's JSON object followed by one stray
closing brace — the template's trailing six-brace run escapes to three
closing braces where valid JSON needs two — so it is not the claimed JSON
object. Evaluated at common name "kaws-admin" on the CA-generation and
CSR-generation operations (the leaf-certificate operation shares the same
payload definition). -/
theorem cfssl_payload_has_extra_brace :
    (CertificateAuthority.generate failGencertParse okOracle ("kaws-admin")).2
      = some (specRequestPayload ("kaws-admin") ++ "\x7d")
    ∧ (CertificateSigningRequest.generate failGenkeyParse okOracle ("kaws-admin")).2
      = some (specRequestPayload ("kaws-admin") ++ "\x7d")
    ∧ (sampleCA.generate_cert failGencertParse ⟨true, true, true⟩ okOracle
        ("kaws-tmp") ("kaws-admin") none []).2.2
      = some (specRequestPayload ("kaws-admin") ++ "\x7d")
    ∧ cfsslRequestPayload ("kaws-admin") ≠ specRequestPayload ("kaws-admin") := by
  refine ⟨?_, ?_, ?_, ?_⟩ <;> decide

/-- C4: every staged file of the leaf-certificate and CSR-signing operations
lives inside the call's temporary directory, and under the freshness of that
directory the whole operation leaves the filesystem exactly as it found it on
every path, success or failure: the staging is fully undone before control
returns. -/
theorem pki_staging_tempdir_cleanup (ca : CertificateAuthority)
    (parseG : List Nat → Except KawsError CfsslGencertResponse)
    (parseS : List Nat → Except KawsError CfsslSignResponse)
    (so : StageOracle) (co : ChildOracle) (tmp cn : String)
    (san : Option (List String)) (csr : CertificateSigningRequest) (fs : FS)
    (hfresh : ∀ e ∈ fs, isUnder tmp e.1 = false) :
    (ca.generate_cert parseG so co tmp cn san fs).2.1 = fs
    ∧ (ca.sign parseS so co tmp csr fs).2.1 = fs
    ∧ (so.tempdirOk = true → so.certWriteOk = true → so.keyWriteOk = true →
        (ca.temporary_write so tmp fs).1
          = .ok (tmp, [tmp, "cert.pem"], [tmp, "key.pem"])
        ∧ fsRead (ca.temporary_write so tmp fs).2 [tmp, "cert.pem"]
          = some ca.cert.bytes
        ∧ fsRead (ca.temporary_write so tmp fs).2 [tmp, "key.pem"]
          = some ca.key.bytes) := by
  have hu1 : isUnder tmp [tmp, "cert.pem"] = true := by
    simp [isUnder]
  have hu2 : isUnder tmp [tmp, "key.pem"] = true := by
    simp [isUnder]
  have hclean : fsRemoveDir fs tmp = fs := fsRemoveDir_eq_self fs tmp hfresh
  have hrem1 : ∀ v1, fsRemoveDir (fsWrite fs [tmp, "cert.pem"] v1) tmp = fs := by
    intro v1
    rw [fsRemoveDir_write_under _ _ _ _ hu1, hclean]
  have hrem2 : ∀ v1 v2,
      fsRemoveDir (fsWrite (fsWrite fs [tmp, "cert.pem"] v1) [tmp, "key.pem"] v2) tmp
        = fs := by
    intro v1 v2
    rw [fsRemoveDir_write_under _ _ _ _ hu2, fsRemoveDir_write_under _ _ _ _ hu1, hclean]
  obtain ⟨td, cw, kw⟩ := so
  obtain ⟨sp, si, wo, wa, pout⟩ := co
  obtain ⟨os, pstdout, pstderr⟩ := pout
  refine ⟨?_, ?_, ?_⟩
  · cases td <;> cases cw <;> cases kw <;> cases sp <;> cases si <;> cases wo <;>
      cases wa <;> cases os <;>
      simp only [CertificateAuthority.generate_cert, CertificateAuthority.temporary_write,
        Bool.true_eq_false, Bool.false_eq_true, eq_self_iff_true, if_true, if_false,
        ite_true, ite_false] <;>
      first
        | rfl
        | rw [hrem1]
        | rw [hclean]
        | (cases parseG pstdout <;> simp [hrem2])
  · cases td <;> cases cw <;> cases kw <;> cases sp <;> cases si <;> cases wo <;>
      cases wa <;> cases os <;>
      simp only [CertificateAuthority.sign, CertificateAuthority.temporary_write,
        Bool.true_eq_false, Bool.false_eq_true, eq_self_iff_true, if_true, if_false,
        ite_true, ite_false] <;>
      first
        | rfl
        | rw [hrem1]
        | rw [hclean]
        | (cases parseS pstdout <;> simp [hrem2])
  · intro h1 h2 h3
    subst h1
    subst h2
    subst h3
    have hne : ([tmp, "cert.pem"] : Path) ≠ [tmp, "key.pem"] := by
      simp
    refine ⟨rfl, ?_, ?_⟩
    · simp only [CertificateAuthority.temporary_write, Bool.true_eq_false, if_false,
        ite_false]
      rw [fsRead_write_ne _ _ _ _ hne, fsRead_write_self]
    · simp only [CertificateAuthority.temporary_write, Bool.true_eq_false, if_false,
        ite_false]
      rw [fsRead_write_self]

/-- Witness for C4 at a concrete CA, oracles and filesystem. -/
theorem pki_staging_tempdir_cleanup_witness :
    (∀ e ∈ ([(caCertPath ("demo"), [9])] : FS), isUnder ("kaws-tmp") e.1 = false)
    ∧ (sampleCA.generate_cert failGencertParse ⟨true, true, true⟩ okOracle
        ("kaws-tmp") ("node") none [(caCertPath ("demo"), [9])]).2.1
      = [(caCertPath ("demo"), [9])] :=
  ⟨by decide,
   (pki_staging_tempdir_cleanup sampleCA failGencertParse failSignParse
     ⟨true, true, true⟩ okOracle ("kaws-tmp") ("node") none sampleCSR
     [(caCertPath ("demo"), [9])] (by decide)).1⟩

/-- C5 (counterexample): with a CA certificate and encrypted CA key already
on disk at the canonical paths for cluster "demo", writing a newly generated
CA succeeds silently and the certificate path afterwards holds the new CA's
bytes, not the previous content: generation does overwrite an existing CA. -/
theorem ca_generate_overwrites_counterexample :
    fsRead ([(caCertPath ("demo"), [111]), (encryptedCaKeyPath ("demo"), [222])] : FS)
      (caCertPath ("demo")) = some [111]
    ∧ exceptOk (sampleCA.write_to_files sampleCipher sampleRef kms0
        (caCertPath ("demo")) (encryptedCaKeyPath ("demo"))
        [(caCertPath ("demo"), [111]), (encryptedCaKeyPath ("demo"), [222])]).1.1 = true
    ∧ fsRead (sampleCA.write_to_files sampleCipher sampleRef kms0
        (caCertPath ("demo")) (encryptedCaKeyPath ("demo"))
        [(caCertPath ("demo"), [111]), (encryptedCaKeyPath ("demo"), [222])]).2
        (caCertPath ("demo")) = some sampleCA.cert.bytes
    ∧ sampleCA.cert.bytes ≠ [111] := by
  refine ⟨?_, ?_, ?_, ?_⟩ <;> decide

/-- C5 (amended): the canonical CA file paths are a function of the cluster,
so at most one CA can exist per (cluster, trust domain); but writing a CA is
unconditional — write_to_files succeeds and leaves the new certificate and
the new encrypted key at those paths whatever they held before, with no
existence check or refusal. -/
theorem ca_write_to_files_overwrites (ca : CertificateAuthority) (c : SymCipher)
    (ref : MasterKeyRef) (st : KmsState) (certP keyP : Path) (fs : FS)
    (hne : certP ≠ keyP) :
    exceptOk (ca.write_to_files c ref st certP keyP fs).1.1 = true
    ∧ fsRead (ca.write_to_files c ref st certP keyP fs).2 certP = some ca.cert.bytes
    ∧ fsRead (ca.write_to_files c ref st certP keyP fs).2 keyP
      = some (Encryption.blobBytes (Encryption.encrypt c ref ca.key.bytes st).1) := by
  refine ⟨rfl, ?_, ?_⟩
  · simp only [CertificateAuthority.write_to_files, Encryption.encryptAndWriteFile]
    rw [fsRead_write_ne _ _ _ _ hne, fsRead_write_self]
  · simp only [CertificateAuthority.write_to_files, Encryption.encryptAndWriteFile]
    rw [fsRead_write_self]

/-- Witness for the amended C5 at a concrete CA and filesystem. -/
theorem ca_write_to_files_overwrites_witness :
    caCertPath ("demo") ≠ encryptedCaKeyPath ("demo")
    ∧ fsRead (sampleCA.write_to_files sampleCipher sampleRef kms0
        (caCertPath ("demo")) (encryptedCaKeyPath ("demo"))
        [(caCertPath ("demo"), [111])]).2 (caCertPath ("demo"))
      = some sampleCA.cert.bytes :=
  ⟨by decide,
   (ca_write_to_files_overwrites sampleCA sampleCipher sampleRef kms0
     (caCertPath ("demo")) (encryptedCaKeyPath ("demo"))
     [(caCertPath ("demo"), [111])] (by decide)).2.1⟩

/-- C6: a non-zero engine exit status makes every issuance operation and
execute_child_process return an error, and on that path the result does not
depend on the response parser at all (stdout is never parsed); conversely a
parsed success value arises only from a zero exit status, and it is exactly
the parse of the engine's stdout. -/
theorem engine_exit_status_gating
    (parseG parseG' : List Nat → Except KawsError CfsslGencertResponse)
    (parseS : List Nat → Except KawsError CfsslSignResponse)
    (parseK : List Nat → Except KawsError CfsslGenkeyResponse)
    (so : StageOracle) (co : ChildOracle) (tmp cn : String)
    (san : Option (List String)) (csr : CertificateSigningRequest)
    (fs : FS) (ca : CertificateAuthority) (u8 : Bool) :
    (co.out.success = false →
      exceptOk (CertificateAuthority.generate parseG co cn).1 = false
      ∧ exceptOk (ca.generate_cert parseG so co tmp cn san fs).1 = false
      ∧ exceptOk (ca.sign parseS so co tmp csr fs).1 = false
      ∧ exceptOk (CertificateSigningRequest.generate parseK co cn).1 = false
      ∧ exceptOk (execute_child_process (some co.out) u8) = false
      ∧ (CertificateAuthority.generate parseG co cn).1
        = (CertificateAuthority.generate parseG' co cn).1)
    ∧ (∀ A, (CertificateAuthority.generate parseG co cn).1 = .ok A →
        co.out.success = true
        ∧ ∃ raw, parseG co.out.stdout = .ok raw ∧ A = ⟨⟨raw.cert⟩, ⟨raw.key⟩⟩) := by
  obtain ⟨td, cw, kw⟩ := so
  obtain ⟨sp, si, wo, wa, pout⟩ := co
  obtain ⟨os, pstdout, pstderr⟩ := pout
  constructor
  · intro hfail
    simp only at hfail
    subst hfail
    refine ⟨?_, ?_, ?_, ?_, ?_, ?_⟩
    · cases sp <;> cases si <;> cases wo <;> cases wa <;>
        simp [CertificateAuthority.generate, exceptOk]
    · cases td <;> cases cw <;> cases kw <;> cases sp <;> cases si <;> cases wo <;>
        cases wa <;>
        simp [CertificateAuthority.generate_cert, CertificateAuthority.temporary_write,
          exceptOk]
    · cases td <;> cases cw <;> cases kw <;> cases sp <;> cases si <;> cases wo <;>
        cases wa <;>
        simp [CertificateAuthority.sign, CertificateAuthority.temporary_write, exceptOk]
    · cases sp <;> cases si <;> cases wo <;> cases wa <;>
        simp [CertificateSigningRequest.generate, exceptOk]
    · cases u8 <;> simp [execute_child_process, exceptOk]
    · cases sp <;> cases si <;> cases wo <;> cases wa <;>
        simp [CertificateAuthority.generate]
  · intro A hA
    cases sp with
    | false => simp [CertificateAuthority.generate] at hA
    | true =>
    cases si with
    | false => simp [CertificateAuthority.generate] at hA
    | true =>
    cases wo with
    | false => simp [CertificateAuthority.generate] at hA
    | true =>
    cases wa with
    | false => simp [CertificateAuthority.generate] at hA
    | true =>
    cases os with
    | false => simp [CertificateAuthority.generate] at hA
    | true =>
    simp only [CertificateAuthority.generate, Bool.true_eq_false, Bool.false_eq_true,
      eq_self_iff_true, if_true, if_false, ite_true, ite_false] at hA
    revert hA
    cases hp : parseG pstdout with
    | error e =>
      intro hA
      simp at hA
    | ok raw =>
      intro hA
      refine ⟨rfl, raw, rfl, ?_⟩
      simp only at hA
      cases hA
      rfl
/-- Witness for C6 at a concrete oracle whose engine exits non-zero. -/
theorem engine_exit_status_gating_witness :
    badOracle.out.success = false
    ∧ exceptOk (CertificateAuthority.generate failGencertParse badOracle ("kaws-ca")).1
      = false :=
  ⟨rfl,
   ((engine_exit_status_gating failGencertParse failGencertParse failSignParse
     failGenkeyParse ⟨true, true, true⟩ badOracle ("kaws-tmp") ("kaws-ca") none
     sampleCSR [] sampleCA true).1 rfl).1⟩

end Kaws

